import Mathlib

/-!
Verification of the rspace-mcp tool layer and its Grid Placement Planner.

The repository (`src/tools/main.py`) registers thin tool wrappers around a
lab-platform client.  The planner semantics (row-major / column-major /
explicit-location placement) are specified in the repository's design
document; the concrete traversal code lives in the vendor client library
(`rspace_client.inv`), outside this repository's sources, so the planner is
modelled here from the specification's algorithm description.  The wrappers
that do appear in `src/tools/main.py` (`move_items_to_specific_grid_locations`
length validation, `get_documents` page-size validation, and the two stubbed
bulk/summary tools) are embedded directly from the source.
-/

namespace RSpaceMCP

/-- Error kinds of the grid placement planner (spec section 7). -/
inductive PlanError where
  | validationError
  | capacityError
deriving DecidableEq, Repr

/-- A 1-based grid coordinate `(row, column)` (spec section 3). -/
structure Coord where
  row : Nat
  col : Nat
deriving DecidableEq, Repr

/-- Fill strategies of a placement request (spec section 3). -/
inductive Strategy where
  | byRow
  | byColumn
  | byExplicitLocation
deriving DecidableEq, Repr

/-- Linear row-major index of a coordinate:
`idx = (row-1)*columnCount + (column-1)` (spec section 4.1). -/
def linIdx (columnCount : Nat) (c : Coord) : Nat :=
  (c.row - 1) * columnCount + (c.col - 1)

/-- Coordinate of a linear row-major index (inverse of `linIdx`). -/
def cellOfIdx (columnCount : Nat) (idx : Nat) : Coord :=
  ⟨idx / columnCount + 1, idx % columnCount + 1⟩

/-- Linear column-major index of a coordinate (row increments fastest). -/
def linIdxCol (rowCount : Nat) (c : Coord) : Nat :=
  (c.col - 1) * rowCount + (c.row - 1)

/-- Coordinate of a linear column-major index. -/
def cellOfIdxCol (rowCount : Nat) (idx : Nat) : Coord :=
  ⟨idx % rowCount + 1, idx / rowCount + 1⟩

/-- Bounds check: `1 ≤ row ≤ rowCount` and `1 ≤ col ≤ columnCount`. -/
def inBoundsB (rowCount columnCount : Nat) (c : Coord) : Bool :=
  decide (1 ≤ c.row) && decide (c.row ≤ rowCount) &&
  decide (1 ≤ c.col) && decide (c.col ≤ columnCount)

/-- Cells visited by a row-major traversal of `n` steps starting at linear
index `s` in a grid of `m = rowCount*columnCount` cells, wrapping around
(spec section 4.1, Algorithm ByRow). -/
def rowCells (columnCount s m n : Nat) : List Coord :=
  (List.range n).map (fun k => cellOfIdx columnCount ((s + k) % m))

/-- Cells visited by a column-major traversal of `n` steps starting at linear
column-major index `s`, wrapping around (spec section 4.1, Algorithm
ByColumn). -/
def colCells (rowCount s m n : Nat) : List Coord :=
  (List.range n).map (fun k => cellOfIdxCol rowCount ((s + k) % m))

/-- Modelled from the spec: the ByRow planner (spec section 4.1).  The
traversal implementation lives in the vendor client library
(`rspace_client.inv.ByRow`), not in this repository's sources; this definition
follows the spec's words: validate the start coordinate against bounds
(`ValidationError`), fail with `CapacityError` when the item count exceeds one
full linear traversal of `rowCount*columnCount` cells, otherwise assign items
in input order to successive row-major linear indices starting at `start`,
wrapping around. -/
def planByRow (rowCount columnCount : Nat) (start : Coord)
    (items : List String) : Except PlanError (List (String × Coord)) :=
  if inBoundsB rowCount columnCount start = false then
    .error .validationError
  else if rowCount * columnCount < items.length then
    .error .capacityError
  else
    .ok (items.zip (rowCells columnCount (linIdx columnCount start)
      (rowCount * columnCount) items.length))

/-- Modelled from the spec: the ByColumn planner (spec section 4.1), identical
to ByRow with row and column roles swapped.  The traversal implementation
lives in the vendor client library (`rspace_client.inv.ByColumn`), not in this
repository's sources. -/
def planByColumn (rowCount columnCount : Nat) (start : Coord)
    (items : List String) : Except PlanError (List (String × Coord)) :=
  if inBoundsB rowCount columnCount start = false then
    .error .validationError
  else if rowCount * columnCount < items.length then
    .error .capacityError
  else
    .ok (items.zip (colCells rowCount (linIdxCol rowCount start)
      (rowCount * columnCount) items.length))

/-- Modelled from the spec: the ByExplicitLocation planner (spec section 4.1).
The placement implementation lives in the vendor client library
(`rspace_client.inv.ByLocation`), not in this repository's sources; this
definition follows the spec's words: fail with `ValidationError` when the
location count differs from the item count, when any location lies outside
bounds, or when the location list contains duplicates; otherwise pair each
item with its corresponding location by position. -/
def planExplicit (rowCount columnCount : Nat) (items : List String)
    (locs : List Coord) : Except PlanError (List (String × Coord)) :=
  if items.length ≠ locs.length then
    .error .validationError
  else if ¬ (locs.all (inBoundsB rowCount columnCount) = true ∧ locs.Nodup) then
    .error .validationError
  else
    .ok (items.zip locs)

/-- Modelled from the spec: the unified planner `planPlacement` (spec
section 6), dispatching on the fill strategy. -/
def planPlacement (strat : Strategy) (rowCount columnCount : Nat)
    (start : Coord) (items : List String) (locs : List Coord) :
    Except PlanError (List (String × Coord)) :=
  match strat with
  | .byRow => planByRow rowCount columnCount start items
  | .byColumn => planByColumn rowCount columnCount start items
  | .byExplicitLocation => planExplicit rowCount columnCount items locs

/-- The tool layer's `GridLocation` pydantic model
(`src/tools/main.py:68-71`): `x` is the 1-based column, `y` the 1-based
row. -/
structure GridLocation where
  x : Int
  y : Int
deriving DecidableEq, Repr

/-- The `ByLocation` placement payload the tool constructs and hands to the
vendor client (`src/tools/main.py:756-757`): the locations as `(x, y)` pairs
in input order, and the item ids in input order. -/
structure ByLocationPlacement where
  locations : List (Int × Int)
  itemIds : List String
deriving DecidableEq, Repr

/-- Embedding of `move_items_to_specific_grid_locations`
(`src/tools/main.py:738-759`) up to the external client call: raises
`ValueError` when the item count differs from the location count, otherwise
builds the `ByLocation` placement payload passed to
`inv_cli.add_items_to_grid_container`. -/
def move_items_to_specific_grid_locations (item_ids : List String)
    (grid_locations : List GridLocation) : Except String ByLocationPlacement :=
  if item_ids.length ≠ grid_locations.length then
    .error "Number of items must match number of grid locations"
  else
    .ok ⟨grid_locations.map (fun loc => (loc.x, loc.y)), item_ids⟩

/-- Embedding of `get_documents` (`src/tools/main.py:115-127`) up to the
external client call: raises `ValueError` when `page_size > 200` or
`page_size < 0`, otherwise forwards `page_size` to
`eln_cli.get_documents`; the `.ok` value is the page size forwarded. -/
def get_documents (page_size : Int) : Except String Int :=
  if 200 < page_size ∨ page_size < 0 then
    .error "page size must be less than 200"
  else
    .ok page_size

/-- A Python value as far as the stubbed tools are concerned. -/
inductive PyValue where
  | pyNone
  | pyDict (entries : List (String × String))
  | pyList (elems : List String)
deriving DecidableEq, Repr

/-- Observable outcome of one tool invocation: the inventory-client methods
it called, the exception it raised (if any), and its return value. -/
structure ToolOutcome where
  clientCalls : List String
  raised : Option String
  ret : PyValue
deriving DecidableEq, Repr

/-- Embedding of `bulk_create_samples` (`src/tools/main.py:876-891`): the
body is a bare `pass` behind TODO comments, so the tool calls no client
method, raises nothing, and returns Python `None`. -/
def bulk_create_samples (_sample_definitions : List (List (String × String))) :
    ToolOutcome :=
  ⟨[], none, .pyNone⟩

/-- Embedding of `get_recent_samples_summary` (`src/tools/main.py:894-908`):
the body is a bare `pass` behind TODO comments, so the tool calls no client
method, raises nothing, and returns Python `None`. -/
def get_recent_samples_summary (_days_back : Int) (_page_size : Int) :
    ToolOutcome :=
  ⟨[], none, .pyNone⟩

/-- Relative row-major position of a coordinate in the traversal that starts
at linear index `s` of a grid with `m` cells. -/
def relPos (columnCount s m : Nat) (c : Coord) : Nat :=
  (linIdx columnCount c + (m - s)) % m

/-- `linIdx` is a left inverse of `cellOfIdx`. -/
theorem linIdx_cellOfIdx (cc idx : Nat) :
    linIdx cc (cellOfIdx cc idx) = idx := by
  simp only [linIdx, cellOfIdx, Nat.add_sub_cancel]
  rw [mul_comm]
  exact Nat.div_add_mod idx cc

/-- `cellOfIdx` is a left inverse of `linIdx` on in-bounds coordinates. -/
theorem cellOfIdx_linIdx (rc cc : Nat) (c : Coord)
    (h : inBoundsB rc cc c = true) : cellOfIdx cc (linIdx cc c) = c := by
  simp only [inBoundsB, Bool.and_eq_true, decide_eq_true_eq] at h
  obtain ⟨⟨⟨h1, h2⟩, h3⟩, h4⟩ := h
  have hcc : 0 < cc := by omega
  have hcol : c.col - 1 < cc := by omega
  have hdiv : ((c.row - 1) * cc + (c.col - 1)) / cc = c.row - 1 := by
    rw [add_comm, Nat.add_mul_div_right _ _ hcc, Nat.div_eq_of_lt hcol]
    omega
  have hmod : ((c.row - 1) * cc + (c.col - 1)) % cc = c.col - 1 := by
    rw [add_comm, Nat.add_mul_mod_self_right, Nat.mod_eq_of_lt hcol]
  have hstep : cellOfIdx cc (linIdx cc c) =
      ⟨c.row - 1 + 1, c.col - 1 + 1⟩ := by
    simp only [cellOfIdx, linIdx, hdiv, hmod]
  rw [hstep]
  have hr : c.row - 1 + 1 = c.row := by omega
  have hc2 : c.col - 1 + 1 = c.col := by omega
  rw [hr, hc2]

/-- The linear index of an in-bounds coordinate lies below the cell count. -/
theorem linIdx_lt_of_inBounds (rc cc : Nat) (c : Coord)
    (h : inBoundsB rc cc c = true) : linIdx cc c < rc * cc := by
  simp only [inBoundsB, Bool.and_eq_true, decide_eq_true_eq] at h
  obtain ⟨⟨⟨h1, h2⟩, h3⟩, h4⟩ := h
  unfold linIdx
  calc (c.row - 1) * cc + (c.col - 1)
      < (c.row - 1) * cc + cc :=
        Nat.add_lt_add_left (by omega) _
    _ = (c.row - 1 + 1) * cc := (Nat.succ_mul (c.row - 1) cc).symm
    _ ≤ rc * cc := Nat.mul_le_mul_right cc (by omega)

/-- The `k`-th cell of a wrapping row-major traversal sits at relative
position `k`. -/
theorem relPos_step (cc s m k : Nat) (hs : s < m) (hk : k < m) :
    relPos cc s m (cellOfIdx cc ((s + k) % m)) = k := by
  unfold relPos
  rw [linIdx_cellOfIdx, Nat.mod_add_mod]
  have h1 : s + k + (m - s) = m + k := by omega
  rw [h1, Nat.add_mod_left, Nat.mod_eq_of_lt hk]

/-- The wrapping row-major traversal never repeats a cell within one pass. -/
theorem rowCells_nodup (cc s m n : Nat) (hs : s < m) (hn : n ≤ m) :
    (rowCells cc s m n).Nodup := by
  unfold rowCells
  refine List.Nodup.map_on ?_ (List.nodup_range n)
  intro x hx y hy hxy
  have hx1 := List.mem_range.mp hx
  have hy1 := List.mem_range.mp hy
  have e1 := relPos_step cc s m x hs (by omega)
  have e2 := relPos_step cc s m y hs (by omega)
  rw [← e1, ← e2, hxy]

/-- C1: an explicit-location request whose item and location lists have equal
length but whose location list contains a duplicate coordinate fails with
`ValidationError` and produces no assignment. -/
theorem explicit_duplicate_location_validation_error
    (rowCount columnCount : Nat) (items : List String) (locs : List Coord)
    (hlen : items.length = locs.length) (hdup : ¬ locs.Nodup) :
    planExplicit rowCount columnCount items locs =
      Except.error PlanError.validationError := by
  unfold planExplicit
  rw [if_neg (by omega)]
  rw [if_pos (by tauto)]

/-- Witness for C1: items `[a, b]` with duplicate locations
`[(1,1), (1,1)]`. -/
theorem explicit_duplicate_location_validation_error_witness :
    planExplicit 2 2 ["a", "b"] [⟨1, 1⟩, ⟨1, 1⟩] =
      Except.error PlanError.validationError :=
  explicit_duplicate_location_validation_error 2 2 ["a", "b"]
    [⟨1, 1⟩, ⟨1, 1⟩] (by decide) (by decide)

/-- C2: a ByRow or ByColumn request whose start coordinate lies outside the
container bounds fails with `ValidationError` and produces no assignment. -/
theorem out_of_bounds_start_validation_error
    (rowCount columnCount : Nat) (start : Coord) (items : List String)
    (hstart : inBoundsB rowCount columnCount start = false) :
    planByRow rowCount columnCount start items =
        Except.error PlanError.validationError ∧
      planByColumn rowCount columnCount start items =
        Except.error PlanError.validationError := by
  constructor
  · unfold planByRow
    rw [if_pos hstart]
  · unfold planByColumn
    rw [if_pos hstart]

/-- Witness for C2: start `(3,1)` in a 2×2 grid. -/
theorem out_of_bounds_start_validation_error_witness :
    planByRow 2 2 ⟨3, 1⟩ ["a"] = Except.error PlanError.validationError ∧
      planByColumn 2 2 ⟨3, 1⟩ ["a"] =
        Except.error PlanError.validationError :=
  out_of_bounds_start_validation_error 2 2 ⟨3, 1⟩ ["a"] (by decide)

/-- C3: `move_items_to_specific_grid_locations` raises the count-mismatch
`ValueError` exactly when the number of items differs from the number of grid
locations; no placement payload is built in that case. -/
theorem explicit_count_mismatch_iff (item_ids : List String)
    (grid_locations : List GridLocation) :
    move_items_to_specific_grid_locations item_ids grid_locations =
        Except.error "Number of items must match number of grid locations" ↔
      item_ids.length ≠ grid_locations.length := by
  unfold move_items_to_specific_grid_locations
  constructor
  · intro h hlen
    rw [if_neg (by omega)] at h
    exact Except.noConfusion h
  · intro hlen
    rw [if_pos hlen]

/-- C4: for every valid ByRow request (in-bounds start, item count within one
linear traversal) the planner succeeds, pairs the items in input order, and
the sequence of assigned cells is strictly increasing in the row-major linear
order that starts at the start coordinate (the relative positions `relPos`
strictly increase along the sequence), with no cell repeated. -/
theorem planByRow_strictly_increasing (rc cc : Nat) (start : Coord)
    (items : List String) (hstart : inBoundsB rc cc start = true)
    (hcap : items.length ≤ rc * cc) :
    planByRow rc cc start items =
      Except.ok (items.zip
        (rowCells cc (linIdx cc start) (rc * cc) items.length)) ∧
    (items.zip
      (rowCells cc (linIdx cc start) (rc * cc) items.length)).map Prod.fst
      = items ∧
    ((items.zip
      (rowCells cc (linIdx cc start) (rc * cc) items.length)).map
        Prod.snd).Pairwise
      (fun c d => relPos cc (linIdx cc start) (rc * cc) c <
        relPos cc (linIdx cc start) (rc * cc) d) ∧
    ((items.zip
      (rowCells cc (linIdx cc start) (rc * cc) items.length)).map
        Prod.snd).Nodup := by
  have hs : linIdx cc start < rc * cc := linIdx_lt_of_inBounds rc cc start hstart
  have hlen : (rowCells cc (linIdx cc start) (rc * cc) items.length).length
      = items.length := by simp [rowCells]
  have hsnd : (items.zip
      (rowCells cc (linIdx cc start) (rc * cc) items.length)).map Prod.snd
      = rowCells cc (linIdx cc start) (rc * cc) items.length :=
    List.map_snd_zip _ _ (le_of_eq hlen)
  refine ⟨?_, ?_, ?_, ?_⟩
  · unfold planByRow
    rw [if_neg (by simp [hstart]), if_neg (Nat.not_lt.mpr hcap)]
  · exact List.map_fst_zip _ _ (le_of_eq hlen.symm)
  · rw [hsnd]
    unfold rowCells
    rw [List.pairwise_map, List.pairwise_iff_getElem]
    intro a b ha hb hab
    simp only [List.length_range] at ha hb
    simp only [List.getElem_range]
    rw [relPos_step cc (linIdx cc start) (rc * cc) a hs (by omega),
      relPos_step cc (linIdx cc start) (rc * cc) b hs (by omega)]
    exact hab
  · rw [hsnd]
    exact rowCells_nodup cc (linIdx cc start) (rc * cc) items.length hs hcap

/-- Witness for C4: bounds `(2,2)`, start `(2,2)`, items `[a,b,c]`. -/
theorem planByRow_strictly_increasing_witness :
    planByRow 2 2 ⟨2, 2⟩ ["a", "b", "c"] =
      Except.ok (["a", "b", "c"].zip
        (rowCells 2 (linIdx 2 ⟨2, 2⟩) (2 * 2) ["a", "b", "c"].length)) ∧
    (["a", "b", "c"].zip
      (rowCells 2 (linIdx 2 ⟨2, 2⟩) (2 * 2) ["a", "b", "c"].length)).map
        Prod.fst = ["a", "b", "c"] ∧
    ((["a", "b", "c"].zip
      (rowCells 2 (linIdx 2 ⟨2, 2⟩) (2 * 2) ["a", "b", "c"].length)).map
        Prod.snd).Pairwise
      (fun c d => relPos 2 (linIdx 2 ⟨2, 2⟩) (2 * 2) c <
        relPos 2 (linIdx 2 ⟨2, 2⟩) (2 * 2) d) ∧
    ((["a", "b", "c"].zip
      (rowCells 2 (linIdx 2 ⟨2, 2⟩) (2 * 2) ["a", "b", "c"].length)).map
        Prod.snd).Nodup :=
  planByRow_strictly_increasing 2 2 ⟨2, 2⟩ ["a", "b", "c"]
    (by decide) (by decide)

/-- C6: with an in-bounds start, a ByRow request whose item count exceeds the
`rowCount*columnCount` cells of one linear traversal fails with
`CapacityError` and produces no assignment; a request of exactly
`rowCount*columnCount` items starting at `(1,1)` succeeds and assigns every
in-bounds cell exactly once. -/
theorem planByRow_capacity (rc cc : Nat) (start : Coord) (items : List String)
    (hstart : inBoundsB rc cc start = true) :
    (rc * cc < items.length →
      planByRow rc cc start items = Except.error PlanError.capacityError) ∧
    (start = ⟨1, 1⟩ → items.length = rc * cc →
      planByRow rc cc start items =
        Except.ok (items.zip (rowCells cc 0 (rc * cc) (rc * cc))) ∧
      ((items.zip (rowCells cc 0 (rc * cc) (rc * cc))).map Prod.snd).length
        = rc * cc ∧
      ∀ c : Coord, inBoundsB rc cc c = true →
        ((items.zip (rowCells cc 0 (rc * cc) (rc * cc))).map Prod.snd).count c
          = 1) := by
  constructor
  · intro hover
    unfold planByRow
    rw [if_neg (by simp [hstart]), if_pos hover]
  · intro h11 hlen
    subst h11
    have hm : 0 < rc * cc := by
      simp only [inBoundsB, Bool.and_eq_true, decide_eq_true_eq] at hstart
      exact Nat.mul_pos (by omega) (by omega)
    have h0 : linIdx cc ⟨1, 1⟩ = 0 := by simp [linIdx]
    have hcells : (rowCells cc 0 (rc * cc) (rc * cc)).length = rc * cc := by
      simp [rowCells]
    have hsnd : (items.zip (rowCells cc 0 (rc * cc) (rc * cc))).map Prod.snd
        = rowCells cc 0 (rc * cc) (rc * cc) :=
      List.map_snd_zip _ _ (le_of_eq (hcells.trans hlen.symm))
    have hnodup : (rowCells cc 0 (rc * cc) (rc * cc)).Nodup :=
      rowCells_nodup cc 0 (rc * cc) (rc * cc) hm le_rfl
    refine ⟨?_, ?_, ?_⟩
    · unfold planByRow
      rw [if_neg (by simp [hstart]),
        if_neg (by rw [hlen]; exact lt_irrefl _), h0, hlen]
    · rw [hsnd, hcells]
    · intro c hc
      rw [hsnd]
      have hlt := linIdx_lt_of_inBounds rc cc c hc
      have hmem : c ∈ rowCells cc 0 (rc * cc) (rc * cc) := by
        unfold rowCells
        refine List.mem_map.mpr ⟨linIdx cc c, List.mem_range.mpr hlt, ?_⟩
        rw [Nat.zero_add, Nat.mod_eq_of_lt hlt, cellOfIdx_linIdx rc cc c hc]
      exact List.count_eq_one_of_mem hnodup hmem

/-- Witness for C6: bounds `(2,2)`, start `(1,1)`, five items — the capacity
branch applies (5 > 4). -/
theorem planByRow_capacity_witness :
    (2 * 2 < ["a", "b", "c", "d", "e"].length →
      planByRow 2 2 ⟨1, 1⟩ ["a", "b", "c", "d", "e"] =
        Except.error PlanError.capacityError) ∧
    ((⟨1, 1⟩ : Coord) = ⟨1, 1⟩ →
      ["a", "b", "c", "d", "e"].length = 2 * 2 →
      planByRow 2 2 ⟨1, 1⟩ ["a", "b", "c", "d", "e"] =
        Except.ok (["a", "b", "c", "d", "e"].zip
          (rowCells 2 0 (2 * 2) (2 * 2))) ∧
      ((["a", "b", "c", "d", "e"].zip
        (rowCells 2 0 (2 * 2) (2 * 2))).map Prod.snd).length = 2 * 2 ∧
      ∀ c : Coord, inBoundsB 2 2 c = true →
        ((["a", "b", "c", "d", "e"].zip
          (rowCells 2 0 (2 * 2) (2 * 2))).map Prod.snd).count c = 1) :=
  planByRow_capacity 2 2 ⟨1, 1⟩ ["a", "b", "c", "d", "e"] (by decide)

/-- C7: for every valid explicit-location request the planner succeeds and
pairs items with locations by position: the first components are the items in
input order and the second components are exactly the input locations,
unchanged. -/
theorem planExplicit_pairs_by_position (rc cc : Nat) (items : List String)
    (locs : List Coord) (hlen : items.length = locs.length)
    (hin : locs.all (inBoundsB rc cc) = true) (hnd : locs.Nodup) :
    planExplicit rc cc items locs = Except.ok (items.zip locs) ∧
    (items.zip locs).map Prod.fst = items ∧
    (items.zip locs).map Prod.snd = locs := by
  refine ⟨?_, ?_, ?_⟩
  · unfold planExplicit
    rw [if_neg (by omega), if_neg (not_not_intro ⟨hin, hnd⟩)]
  · exact List.map_fst_zip _ _ (le_of_eq hlen)
  · exact List.map_snd_zip _ _ (le_of_eq hlen.symm)

/-- Witness for C7: items `[a,b]`, locations `[(1,1),(2,2)]` in a 2×2
grid. -/
theorem planExplicit_pairs_by_position_witness :
    planExplicit 2 2 ["a", "b"] [⟨1, 1⟩, ⟨2, 2⟩] =
      Except.ok (["a", "b"].zip [⟨1, 1⟩, ⟨2, 2⟩]) ∧
    (["a", "b"].zip [(⟨1, 1⟩ : Coord), ⟨2, 2⟩]).map Prod.fst = ["a", "b"] ∧
    (["a", "b"].zip [(⟨1, 1⟩ : Coord), ⟨2, 2⟩]).map Prod.snd =
      [⟨1, 1⟩, ⟨2, 2⟩] :=
  planExplicit_pairs_by_position 2 2 ["a", "b"] [⟨1, 1⟩, ⟨2, 2⟩]
    (by decide) (by decide) (by decide)

/-- C5: a ByRow placement past the last cell wraps to `(1,1)` rather than
failing: bounds `(2,2)`, start `(2,2)`, items `[a,b,c]` yields
`[(a,2,2), (b,1,1), (c,1,2)]`. -/
theorem byRow_wraparound_example :
    planByRow 2 2 ⟨2, 2⟩ ["a", "b", "c"] =
      Except.ok [("a", ⟨2, 2⟩), ("b", ⟨1, 1⟩), ("c", ⟨1, 2⟩)] := by
  rfl

/-- C8: the planner is deterministic — the same invocation on identical
inputs always yields the identical output, with no dependence on external
state (the planner is a pure function of its arguments). -/
theorem planner_deterministic (strat : Strategy) (rowCount columnCount : Nat)
    (start : Coord) (items : List String) (locs : List Coord) :
    planPlacement strat rowCount columnCount start items locs =
      planPlacement strat rowCount columnCount start items locs :=
  rfl

/-- C9: `get_documents` raises `ValueError` exactly when `page_size > 200` or
`page_size < 0`; the boundary value 200 is accepted and forwarded to the
client even though the message says the page size must be less than 200. -/
theorem get_documents_page_size_validation (page_size : Int) :
    (get_documents page_size =
        Except.error "page size must be less than 200" ↔
      (200 < page_size ∨ page_size < 0)) ∧
      get_documents 200 = Except.ok 200 := by
  constructor
  · unfold get_documents
    constructor
    · intro h
      by_contra hc
      rw [if_neg hc] at h
      exact Except.noConfusion h
    · intro h
      rw [if_pos h]
  · rfl

/-- C10: `bulk_create_samples` and `get_recent_samples_summary` are no-op
stubs: for every input they call no inventory-client method, raise no
exception, and return Python `None` despite their declared dict/list return
types. -/
theorem stub_tools_return_none
    (sample_definitions : List (List (String × String)))
    (days_back page_size : Int) :
    bulk_create_samples sample_definitions =
        ⟨[], none, PyValue.pyNone⟩ ∧
      get_recent_samples_summary days_back page_size =
        ⟨[], none, PyValue.pyNone⟩ :=
  ⟨rfl, rfl⟩

end RSpaceMCP
